import Mathlib

/-!
Shallow embedding of the AI Tutor backend (src/main.py), covering the
`/api/ask` request handler: input normalisation and validation, multimodal
content assembly (images, PDFs, plain text), the SSE streaming relay, and
the trace of external calls made against the upstream provider client.

External effects (base64 decoding, the provider's upload/get/delete calls,
`Part.from_bytes` construction, UTF-8 decoding) are modelled as per-attachment
oracle outcomes carried on the attachment record, so every code path of the
handler is a pure, executable function of the request plus those outcomes.
-/

set_option maxRecDepth 100000

namespace AiTutor

/-- Raw byte strings are modelled as lists of numbers. -/
abbrev Bytes := List Nat

/-- `SUPPORTED_MIME_TYPES` from main.py (a Python set; modelled as a list,
membership is all that is used). -/
def SUPPORTED_MIME_TYPES : List String :=
  ["image/jpeg", "image/png", "image/gif", "image/webp",
   "application/pdf", "text/plain"]

/-- `ALLOWED_BOARDS` from main.py. -/
def ALLOWED_BOARDS : List String := ["ICSE", "CBSE", "SSLC"]

/-- One content part handed to the generation call: `types.Part.from_bytes`
(inline data), `types.Part.from_uri` (remote file reference), or
`types.Part.from_text`. -/
inductive ContentPart
  | bytes (mimeType : String) (data : Bytes)
  | remoteRef (uri : String) (mimeType : String)
  | text (s : String)
deriving DecidableEq

/-- An external call made against the upstream provider client. The handler
in main.py performs uploads, status gets, the streaming generate call and
per-chunk pulls; `filesDelete` is the release of an upload handle
(`client.files.delete`). -/
inductive ExtCall
  | filesUpload
  | filesGet
  | generateContentStream
  | pullNext
  | filesDelete (handle : String)
deriving DecidableEq

/-- The provider-side uploaded file object: its handle (`.name`), `.uri`, and
the state string (`.state.name`) observed on the initial upload and after each
successive `client.files.get` re-poll: `states k` is the state after `k`
re-gets (`states 0` is the state right after upload). -/
structure UploadedFile where
  name : String
  uri : String
  states : Nat → String

/-- Outcome of `client.files.upload` for one PDF attachment: either the call
raises, or it returns an uploaded file object. -/
inductive UploadResult
  | raises (msg : String)
  | ok (u : UploadedFile)

/-- One entry of the request's `files` list, together with the oracle
outcomes of the external operations the handler may apply to it:
`b64Result` is the outcome of `base64.b64decode`, `utf8Text` the result of
`raw_bytes.decode("utf-8", errors="replace")` (total: `errors="replace"`
never raises), `upload` the outcome of the File-API upload (PDFs only), and
`inlineRaise` whether `types.Part.from_bytes` raises (with message). -/
structure Attachment where
  name : Option String
  mimeType : Option String
  base64 : Option String
  b64Result : Except String Bytes
  utf8Text : String
  upload : UploadResult
  inlineRaise : Option String

/-- Mutable state threaded through the attachment loop of `ask_question`:
the growing `prompt_text`, the `contents` parts list, the
`uploaded_file_uris` tracking list, and the trace of external calls made. -/
structure AssembleState where
  promptText : String
  contents : List ContentPart
  uploadedFileUris : List String
  calls : List ExtCall
deriving DecidableEq

/-- The PDF status poll loop of main.py:
`while uploaded.state.name == "PROCESSING" and waited < max_wait:` with
`max_wait = 20`; each iteration sleeps one second, increments `waited` and
re-gets the file. `pollWait states waited remaining` returns the final value
of `waited`, where `remaining = max_wait - waited` initially; the loop entry
is `pollWait states 0 20`. -/
def pollWait (states : Nat → String) : Nat → Nat → Nat
  | waited, 0 => waited
  | waited, remaining + 1 =>
    if states waited = "PROCESSING" then pollWait states (waited + 1) remaining
    else waited

/-- One iteration of the `for f in files:` loop of `ask_question`
(main.py lines 277-349), as a state transformer. Mirrors, in order:
the empty-field skip, the unsupported-mime annotation, base64 decode with
per-attachment error annotation, the PDF upload/poll/reference path with
inline fallback, the plain-text direct embed, and the image inline path. -/
def processFile (st : AssembleState) (f : Attachment) : AssembleState :=
  let mime := f.mimeType.getD ""
  let b64 := f.base64.getD ""
  let name := f.name.getD "file"
  if b64 = "" ∨ mime = "" then
    st
  else if mime ∉ SUPPORTED_MIME_TYPES then
    { st with promptText := st.promptText ++
        "\n\n[Note: File \'" ++ name ++ "\' (" ++ mime ++ ") is unsupported and was skipped.]" }
  else
    match f.b64Result with
    | Except.error e =>
      { st with promptText := st.promptText ++
          "\n\n[Note: Could not decode file \'" ++ name ++ "\': " ++ e ++ "]" }
    | Except.ok raw =>
      if mime = "application/pdf" then
        match f.upload with
        | UploadResult.ok u =>
          let waited := pollWait u.states 0 20
          let st1 := { st with calls := st.calls ++
              ExtCall.filesUpload :: List.replicate waited ExtCall.filesGet }
          if u.states waited = "ACTIVE" then
            { st1 with
                contents := st1.contents ++ [ContentPart.remoteRef u.uri "application/pdf"],
                uploadedFileUris := st1.uploadedFileUris ++ [u.name] }
          else
            { st1 with promptText := st1.promptText ++
                "\n\n[Note: PDF \'" ++ name ++ "\' could not be processed (state: " ++
                u.states waited ++ ").]" }
        | UploadResult.raises e =>
          let st1 := { st with
              calls := st.calls ++ [ExtCall.filesUpload],
              promptText := st.promptText ++
                "\n\n[Note: PDF upload failed (" ++ e ++ "), trying inline.]" }
          match f.inlineRaise with
          | none => { st1 with contents := st1.contents ++ [ContentPart.bytes mime raw] }
          | some _ => { st1 with promptText := st1.promptText ++
              "\n\n[Note: Could not process PDF \'" ++ name ++ "\' at all.]" }
      else if mime = "text/plain" then
        { st with promptText := st.promptText ++
            "\n\n--- Content of " ++ name ++ " ---\n" ++ f.utf8Text ++
            "\n--- End of " ++ name ++ " ---" }
      else
        match f.inlineRaise with
        | none => { st with contents := st.contents ++ [ContentPart.bytes mime raw] }
        | some e => { st with promptText := st.promptText ++
            "\n\n[Note: Could not process image \'" ++ name ++ "\': " ++ e ++ "]" }

/-- The content-assembly phase of `ask_question`: fold the attachment loop
over the files, then append the single final text part
(`contents.append(types.Part.from_text(text=prompt_text))`, line 352). -/
def assembleContents (promptText0 : String) (files : List Attachment) : AssembleState :=
  let st := files.foldl processFile
    { promptText := promptText0, contents := [], uploadedFileUris := [], calls := [] }
  { st with contents := st.contents ++ [ContentPart.text st.promptText] }

/-- One SSE event yielded by the `stream()` generator:
`data` is the wire string `f"data: {json.dumps(text)}\n\n"`,
`evEnd` is `"event: end\ndata: done\n\n"`, and
`evError e` is `f"event: error\ndata: {str(e)}\n\n"`. -/
inductive SSEEvent
  | data (text : String)
  | evEnd
  | evError (msg : String)
deriving DecidableEq

/-- Outcome of one pull `next(response_stream, None)` against the upstream
iterator: a chunk (whose `.text` may be missing, modelled `Option String`),
the end-of-stream sentinel `None`, or an exception raised by the pull. -/
inductive Pull
  | chunk (text : Option String)
  | sentinel
  | raises (msg : String)
deriving DecidableEq

/-- The `while True:` pull loop of the `stream()` generator (main.py lines
369-377), on the sequence of results successive pulls would return.
A sentinel (or an exhausted source, for which `next(it, None)` also returns
`None`) breaks the loop and yields the `end` event; a raised pull is caught
by the enclosing `except` which yields the single `error` event; a chunk
yields a data event exactly when `chunk.text or ""` is non-empty. -/
def relayEvents : List Pull → List SSEEvent
  | [] => [SSEEvent.evEnd]
  | Pull.sentinel :: _ => [SSEEvent.evEnd]
  | Pull.raises e :: _ => [SSEEvent.evError e]
  | Pull.chunk t :: rest =>
    if t.getD "" = "" then relayEvents rest
    else SSEEvent.data (t.getD "") :: relayEvents rest

/-- The pulls the loop actually issues against the upstream iterator: one
per consumed chunk, plus the final pull that returned the sentinel or
raised; nothing past the first sentinel or exception is ever pulled. -/
def relayCalls : List Pull → List ExtCall
  | [] => [ExtCall.pullNext]
  | Pull.sentinel :: _ => [ExtCall.pullNext]
  | Pull.raises _ :: _ => [ExtCall.pullNext]
  | Pull.chunk _ :: rest => ExtCall.pullNext :: relayCalls rest

/-- The whole `stream()` generator body: the initial
`client.models.generate_content_stream` call may itself raise (`setup` is
its outcome), in which case the `except` yields the single error event and
no pull is ever issued; otherwise the pull loop runs. -/
def streamEvents (setup : Except String Unit) (pulls : List Pull) : List SSEEvent :=
  match setup with
  | Except.error e => [SSEEvent.evError e]
  | Except.ok _ => relayEvents pulls

/-- The external calls made by the `stream()` generator. -/
def streamCalls (setup : Except String Unit) (pulls : List Pull) : List ExtCall :=
  ExtCall.generateContentStream ::
    (match setup with
     | Except.error _ => []
     | Except.ok _ => relayCalls pulls)

/-- The raw `/api/ask` request body fields used by the handler, each absent
(`none`) or present. -/
structure Payload where
  board : Option String
  class_level : Option String
  subject : Option String
  chapter : Option String
  question : Option String
  model : Option String
  files : Option (List Attachment)

/-- Python `str.strip()`: drop leading and trailing whitespace. (Lean's own
`String.trim` is defined by well-founded recursion and does not evaluate
inside proofs, so the embedding uses this structurally recursive version.) -/
def pyStrip (s : String) : String :=
  String.mk (((s.data.dropWhile Char.isWhitespace).reverse.dropWhile
    Char.isWhitespace).reverse)

/-- Python `str.upper()` (ASCII case mapping suffices for this code). -/
def pyUpper (s : String) : String := String.mk (s.data.map Char.toUpper)

/-- Python `str.lower()` (ASCII case mapping suffices for this code). -/
def pyLower (s : String) : String := String.mk (s.data.map Char.toLower)

/-- Python `payload.get(k) or default`: absent and falsy (empty-string)
values both fall back to the default. -/
def pyOr (o : Option String) (d : String) : String :=
  match o with
  | none => d
  | some s => if s = "" then d else s

/-- Python `payload.get("files") or []`: absent falls back to the empty
list (an empty list is falsy but the fallback is `[]` anyway). -/
def pyOrList (o : Option (List Attachment)) : List Attachment :=
  match o with
  | none => []
  | some l => l

/-- The normalized request after validation and defaulting. -/
structure NormRequest where
  board : String
  class_level : String
  subject : String
  chapter : String
  question : String
  model_name : String
  files : List Attachment

/-- `raise HTTPException(status_code=400, detail=...)`. -/
inductive HttpError
  | badRequest (detail : String)
deriving DecidableEq

/-- The validation and defaulting prefix of `ask_question` (main.py lines
60-84): field extraction with `or`-defaults and strip/upper/lower, the
board allow-list check, the question-or-file requirement, the default
question substituted when files are present but the question is empty,
and the model-tier to model-name selection. -/
def askValidate (p : Payload) : Except HttpError NormRequest :=
  let board := pyUpper (pyStrip (pyOr p.board "ICSE"))
  let class_level := pyStrip (pyOr p.class_level "10")
  let subject := pyStrip (pyOr p.subject "General")
  let chapter := pyStrip (pyOr p.chapter "General")
  let question := pyStrip (pyOr p.question "")
  let model_choice := pyLower (pyOr p.model "t1")
  let files := pyOrList p.files
  if board ∉ ALLOWED_BOARDS then
    Except.error (HttpError.badRequest "Invalid board")
  else if question = "" ∧ files.isEmpty = true then
    Except.error (HttpError.badRequest "Question or file required")
  else
    let question :=
      if question = "" ∧ files.isEmpty = false then
        "Please analyse this and answer any questions based on it."
      else question
    let model_name := if model_choice = "t2" then "gemini-3-pro-preview" else "gemini-2.5-flash-lite"
    Except.ok { board := board, class_level := class_level, subject := subject,
                chapter := chapter, question := question, model_name := model_name,
                files := files }

/-- Optional generation parameters of the upstream call. The handler's
`generate_content_stream` call passes no config object at all, so this
record is never constructed by the embedded code; it exists to state what
the call does not set (the temperature slot is a placeholder numeric type,
since no value is ever written to it). -/
structure GenConfig where
  maxOutputTokens : Option Nat
  temperature : Option Int
deriving DecidableEq

/-- The arguments of the `client.models.generate_content_stream(...)` call:
main.py lines 359-362 pass exactly `model=model_name` and
`contents=contents`, and no config. -/
structure GenerateCallArgs where
  model : String
  contents : List ContentPart
  config : Option GenConfig
deriving DecidableEq

/-- Everything observable from one accepted `/api/ask` request: the
generate-call arguments, the upload-handle tracking list, the SSE events
emitted, and the trace of external calls over the whole request (content
assembly followed by the stream generator; nothing runs after the
`StreamingResponse` is returned — main.py registers no cleanup). -/
structure AskResult where
  genArgs : GenerateCallArgs
  uploadedFileUris : List String
  events : List SSEEvent
  calls : List ExtCall
deriving DecidableEq

/-- The `/api/ask` handler end to end. `template` is the instruction-text
builder (the inline prompt f-string of main.py lines 89-266, a pure
function of the normalized request, treated as the external Instruction
Template Provider); `setup` and `pulls` are the oracle outcomes of the
upstream generation calls. -/
def askRun (template : NormRequest → String) (p : Payload)
    (setup : Except String Unit) (pulls : List Pull) : Except HttpError AskResult :=
  match askValidate p with
  | Except.error e => Except.error e
  | Except.ok req =>
    let st := assembleContents (template req) req.files
    Except.ok
      { genArgs := { model := req.model_name, contents := st.contents, config := none },
        uploadedFileUris := st.uploadedFileUris,
        events := streamEvents setup pulls,
        calls := st.calls ++ streamCalls setup pulls }

/-- Is this external call a release (`client.files.delete`) of an upload
handle? -/
def isFilesDelete : ExtCall → Bool
  | ExtCall.filesDelete _ => true
  | _ => false

/-- Is this SSE event a terminal marker (`end` or `error`)? -/
def isTerminal : SSEEvent → Bool
  | SSEEvent.evEnd => true
  | SSEEvent.evError _ => true
  | SSEEvent.data _ => false

/-- Is this content part a text part? -/
def isTextPart : ContentPart → Bool
  | ContentPart.text _ => true
  | _ => false

/-! Helper lemmas -/

lemma relayEvents_terminal : ∀ pulls : List Pull,
    ∃ pre e, relayEvents pulls = pre ++ [e] ∧ isTerminal e = true ∧
      pre.countP isTerminal = 0
  | [] => ⟨[], SSEEvent.evEnd, rfl, rfl, rfl⟩
  | Pull.sentinel :: _ => ⟨[], SSEEvent.evEnd, rfl, rfl, rfl⟩
  | Pull.raises e :: _ => ⟨[], SSEEvent.evError e, rfl, rfl, rfl⟩
  | Pull.chunk t :: rest => by
    obtain ⟨pre, e, h1, h2, h3⟩ := relayEvents_terminal rest
    by_cases ht : t.getD "" = ""
    · exact ⟨pre, e, by simp [relayEvents, ht, h1], h2, h3⟩
    · refine ⟨SSEEvent.data (t.getD "") :: pre, e, ?_, h2, ?_⟩
      · simp [relayEvents, ht, h1]
      · simp [List.countP_cons, isTerminal, h3]

/-! Claim theorems -/

/-- C3: for every accepted request, the emitted SSE event sequence ends with
exactly one terminal marker (an `end` event or an `error` event, mutually
exclusive), always the last event; an exception raised while pulling from the
upstream iterator (or by the initial generate call) becomes that single error
event instead of propagating. -/
theorem c3_single_terminal_marker (setup : Except String Unit) (pulls : List Pull) :
    ∃ pre e, streamEvents setup pulls = pre ++ [e] ∧ isTerminal e = true ∧
      pre.countP isTerminal = 0 ∧
      (streamEvents setup pulls).countP isTerminal = 1 := by
  have key : ∃ pre e, streamEvents setup pulls = pre ++ [e] ∧ isTerminal e = true ∧
      pre.countP isTerminal = 0 := by
    cases setup with
    | error msg => exact ⟨[], SSEEvent.evError msg, rfl, rfl, rfl⟩
    | ok _ => exact relayEvents_terminal pulls
  obtain ⟨pre, e, h1, h2, h3⟩ := key
  refine ⟨pre, e, h1, h2, h3, ?_⟩
  rw [h1, List.countP_append, h3, List.countP_cons, h2]
  rfl

/-- C4: a synthetic upstream iterator yielding fragments `frags` (followed by
the sentinel, whatever lies beyond it) produces SSE data events in exactly
that order terminated by `end`, and the loop issues exactly `frags.length + 1`
pulls — one per fragment plus the sentinel pull — never pulling past the
sentinel. -/
theorem c4_order_preserved (frags : List String) (rest : List Pull)
    (h : ∀ t ∈ frags, t ≠ "") :
    relayEvents (frags.map (fun t => Pull.chunk (some t)) ++ Pull.sentinel :: rest)
      = frags.map SSEEvent.data ++ [SSEEvent.evEnd] ∧
    relayCalls (frags.map (fun t => Pull.chunk (some t)) ++ Pull.sentinel :: rest)
      = List.replicate (frags.length + 1) ExtCall.pullNext := by
  induction frags with
  | nil => constructor <;> rfl
  | cons a as ih =>
    have ha : a ≠ "" := h a (by simp)
    have ih2 := ih (fun t ht => h t (by simp [ht]))
    constructor
    · simpa [relayEvents, ha] using ih2.1
    · simpa [relayCalls, List.replicate_succ] using ih2.2

/-- C4 witness: fragments A, B, C arrive in order with a trailing `end`,
using exactly four pulls, even when junk lies beyond the sentinel. -/
theorem c4_order_preserved_witness :
    relayEvents (["A", "B", "C"].map (fun t => Pull.chunk (some t)) ++
        Pull.sentinel :: [Pull.chunk (some "D")])
      = ["A", "B", "C"].map SSEEvent.data ++ [SSEEvent.evEnd] ∧
    relayCalls (["A", "B", "C"].map (fun t => Pull.chunk (some t)) ++
        Pull.sentinel :: [Pull.chunk (some "D")])
      = List.replicate (["A", "B", "C"].length + 1) ExtCall.pullNext :=
  c4_order_preserved ["A", "B", "C"] [Pull.chunk (some "D")] (by decide)

/-- C10: an attachment whose base64 payload or mime type is empty or missing
is skipped silently: the loop state is completely unchanged (no content part,
no annotation on the instruction text, no external call), and the request
proceeds. -/
theorem c10_skip_empty_fields (st : AssembleState) (f : Attachment)
    (h : f.base64.getD "" = "" ∨ f.mimeType.getD "" = "") :
    processFile st f = st := by
  unfold processFile
  rcases h with h | h <;> simp [h]

/-- C10 witness: an attachment with a mime type but no payload leaves a
concrete loop state untouched. -/
theorem c10_skip_empty_fields_witness :
    processFile { promptText := "p", contents := [], uploadedFileUris := [], calls := [] }
      { name := some "x.png", mimeType := some "image/png", base64 := none,
        b64Result := Except.error "nothing", utf8Text := "",
        upload := UploadResult.raises "unused", inlineRaise := none }
      = { promptText := "p", contents := [], uploadedFileUris := [], calls := [] } :=
  c10_skip_empty_fields _ _ (Or.inl rfl)

/-- C9: a request whose question is empty (or absent) but whose attachment
list is non-empty is not rejected; the fixed default question text is
substituted instead. -/
theorem c9_default_question (p : Payload)
    (hb : pyUpper (pyStrip (pyOr p.board "ICSE")) ∈ ALLOWED_BOARDS)
    (hq : pyStrip (pyOr p.question "") = "")
    (hf : (pyOrList p.files).isEmpty = false) :
    ∃ r, askValidate p = Except.ok r ∧
      r.question = "Please analyse this and answer any questions based on it." := by
  unfold askValidate
  simp [hb, hq, hf]

/-- A concrete well-formed image attachment used in witnesses. -/
def pngAttachment : Attachment :=
  { name := some "fig.png", mimeType := some "image/png", base64 := some "iVBORw0KGgo=",
    b64Result := Except.ok [137, 80, 78, 71], utf8Text := "",
    upload := UploadResult.raises "unused", inlineRaise := none }

/-- A concrete payload with no question text but one attachment. -/
def filesOnlyPayload : Payload :=
  { board := none, class_level := none, subject := none, chapter := none,
    question := none, model := none, files := some [pngAttachment] }

/-- C9 witness: the concrete no-question one-file payload is accepted with
the default question substituted. -/
theorem c9_default_question_witness :
    ∃ r, askValidate filesOnlyPayload = Except.ok r ∧
      r.question = "Please analyse this and answer any questions based on it." :=
  c9_default_question filesOnlyPayload (by decide) rfl rfl



lemma processFile_textCount (st : AssembleState) (f : Attachment) :
    (processFile st f).contents.countP isTextPart = st.contents.countP isTextPart := by
  unfold processFile
  dsimp only
  split_ifs
  all_goals repeat' split
  all_goals simp [List.countP_append, List.countP_cons, isTextPart]

lemma foldl_processFile_textCount (files : List Attachment) (st : AssembleState) :
    ((files.foldl processFile st).contents).countP isTextPart
      = st.contents.countP isTextPart := by
  induction files generalizing st with
  | nil => rfl
  | cons f fs ih => rw [List.foldl_cons, ih, processFile_textCount]

/-- C7: for every initial instruction text and attachment list, the assembled
content sequence is some list of non-text parts followed by exactly one final
Text part (holding the fully composed instruction text), so the Text part is
last and unique. -/
theorem c7_single_final_text_part (promptText0 : String) (files : List Attachment) :
    ∃ nonText finalText,
      (assembleContents promptText0 files).contents = nonText ++ [ContentPart.text finalText] ∧
      nonText.countP isTextPart = 0 ∧
      ((assembleContents promptText0 files).contents).countP isTextPart = 1 := by
  refine ⟨(files.foldl processFile
      { promptText := promptText0, contents := [], uploadedFileUris := [], calls := [] }).contents,
    (files.foldl processFile
      { promptText := promptText0, contents := [], uploadedFileUris := [], calls := [] }).promptText,
    rfl, ?_, ?_⟩
  · exact foldl_processFile_textCount files _
  · show ((files.foldl processFile _).contents ++ [ContentPart.text _]).countP isTextPart = 1
    rw [List.countP_append, foldl_processFile_textCount files _]
    rfl

lemma countP_replicate_filesGet (n : Nat) :
    (List.replicate n ExtCall.filesGet).countP isFilesDelete = 0 := by
  induction n with
  | zero => rfl
  | succ n ih => simp [List.replicate_succ, List.countP_cons, isFilesDelete, ih]

lemma processFile_deleteCount (st : AssembleState) (f : Attachment) :
    (processFile st f).calls.countP isFilesDelete = st.calls.countP isFilesDelete := by
  unfold processFile
  dsimp only
  split_ifs
  all_goals repeat' split
  all_goals simp [List.countP_append, List.countP_cons, isFilesDelete,
    countP_replicate_filesGet]

lemma foldl_processFile_deleteCount (files : List Attachment) (st : AssembleState) :
    ((files.foldl processFile st).calls).countP isFilesDelete
      = st.calls.countP isFilesDelete := by
  induction files generalizing st with
  | nil => rfl
  | cons f fs ih => rw [List.foldl_cons, ih, processFile_deleteCount]

lemma relayCalls_deleteCount : ∀ pulls : List Pull,
    (relayCalls pulls).countP isFilesDelete = 0
  | [] => rfl
  | Pull.sentinel :: _ => rfl
  | Pull.raises _ :: _ => rfl
  | Pull.chunk t :: rest => by
    simp [relayCalls, List.countP_cons, isFilesDelete, relayCalls_deleteCount rest]

lemma streamCalls_deleteCount (setup : Except String Unit) (pulls : List Pull) :
    (streamCalls setup pulls).countP isFilesDelete = 0 := by
  cases setup <;>
    simp [streamCalls, List.countP_cons, isFilesDelete, relayCalls_deleteCount]

/-- C1 (amended): across the whole request — content assembly, upload and
polling, and the stream generator on every exit path of the pull loop —
the handler never invokes a release (`client.files.delete`) of any upload
handle: the count of delete calls in the external-call trace is zero, so
handles recorded in `uploaded_file_uris` are left dangling. -/
theorem c1_no_release_calls (template : NormRequest → String) (p : Payload)
    (setup : Except String Unit) (pulls : List Pull) (r : AskResult)
    (h : askRun template p setup pulls = Except.ok r) :
    r.calls.countP isFilesDelete = 0 := by
  unfold askRun at h
  cases hv : askValidate p with
  | error e => rw [hv] at h; cases h
  | ok req =>
    rw [hv] at h
    cases h
    show ((assembleContents (template req) req.files).calls ++
        streamCalls setup pulls).countP isFilesDelete = 0
    rw [List.countP_append, streamCalls_deleteCount]
    show ((req.files.foldl processFile _).calls).countP isFilesDelete + 0 = 0
    rw [foldl_processFile_deleteCount]
    rfl

/-- 1501 copies of the letter a: one character beyond the 1500-character cap
the spec names. -/
def longQuestion : String := String.mk (List.replicate 1501 'a')

/-- A concrete payload whose question is 1501 characters long. -/
def longQuestionPayload : Payload :=
  { board := none, class_level := none, subject := none, chapter := none,
    question := some longQuestion, model := none, files := none }

lemma longQuestion_length : longQuestion.length = 1501 := by
  show (List.replicate 1501 'a').length = 1501
  rw [List.length_replicate]

lemma longQuestion_ne_empty : longQuestion ≠ "" := by
  intro h
  have h2 := congrArg String.length h
  rw [longQuestion_length] at h2
  have h3 : ("" : String).length = 0 := rfl
  rw [h3] at h2
  exact absurd h2 (by decide)

lemma dropWhile_longQuestion :
    List.dropWhile Char.isWhitespace (List.replicate 1501 'a')
      = List.replicate 1501 'a' := by
  show List.dropWhile Char.isWhitespace (List.replicate (1500 + 1) 'a')
    = List.replicate (1500 + 1) 'a'
  rw [List.replicate_succ, List.dropWhile_cons_of_neg (by decide)]

lemma pyStrip_longQuestion : pyStrip longQuestion = longQuestion := by
  show pyStrip (String.mk (List.replicate 1501 'a')) = longQuestion
  unfold pyStrip
  rw [show (String.mk (List.replicate 1501 'a')).data = List.replicate 1501 'a' from rfl]
  rw [dropWhile_longQuestion, List.reverse_replicate, dropWhile_longQuestion,
    List.reverse_replicate]
  rfl

lemma pyOr_longQuestion : pyOr longQuestionPayload.question "" = longQuestion := by
  show pyOr (some longQuestion) "" = longQuestion
  simp [pyOr, longQuestion_ne_empty]

/-- C2 counterexample: the 1501-character question is accepted by the
handler's validation, passed through at full length — it is not rejected
with any length-specific error. -/
theorem c2_overlong_question_accepted_cex :
    (askValidate longQuestionPayload).map (fun r => r.question.length)
      = Except.ok 1501 := by
  have hboard : pyUpper (pyStrip "ICSE") = "ICSE" := by decide
  have hmodel : pyLower "t1" = "t1" := by decide
  simp [askValidate, longQuestionPayload, pyOr, pyOrList, hboard, hmodel,
    longQuestion_ne_empty, pyStrip_longQuestion, longQuestion_length,
    ALLOWED_BOARDS, Except.map]

/-- C2 (amended): the ask handler performs no question-length validation:
every request with a valid board and a question longer than 1500 characters
is accepted, the over-long question passed through unchanged. -/
theorem c2_no_length_check (p : Payload)
    (hb : pyUpper (pyStrip (pyOr p.board "ICSE")) ∈ ALLOWED_BOARDS)
    (hlen : 1500 < (pyStrip (pyOr p.question "")).length) :
    ∃ r, askValidate p = Except.ok r ∧ r.question = pyStrip (pyOr p.question "") := by
  have hq : pyStrip (pyOr p.question "") ≠ "" := by
    intro hx
    rw [hx] at hlen
    exact absurd hlen (by decide)
  unfold askValidate
  simp [hb, hq]

/-- C2 witness: the theorem applied to the concrete 1501-character payload. -/
theorem c2_no_length_check_witness :
    ∃ r, askValidate longQuestionPayload = Except.ok r ∧
      r.question = pyStrip (pyOr longQuestionPayload.question "") :=
  c2_no_length_check longQuestionPayload (by decide)
    (by rw [pyOr_longQuestion, pyStrip_longQuestion, longQuestion_length]; omega)

/-- The empty assembler loop state (the state at the top of the attachment
loop of a request whose instruction text is empty). -/
def emptyAssembleState : AssembleState :=
  { promptText := "", contents := [], uploadedFileUris := [], calls := [] }

/-- 8001 copies of the letter a: one character beyond the 8000-character
truncation cap the spec names. -/
def bigText : String := String.mk (List.replicate 8001 'a')

/-- A plain-text attachment whose decoded content is 8001 characters. -/
def bigTextAttachment : Attachment :=
  { name := some "notes.txt", mimeType := some "text/plain", base64 := some "YQ==",
    b64Result := Except.ok [97], utf8Text := bigText,
    upload := UploadResult.raises "unused", inlineRaise := none }

/-- C6 counterexample: the 8001-character decoded text is embedded into the
instruction text whole — past any 8000-character cap, with no truncation
marker — and no content part is produced for it. -/
theorem c6_no_truncation_cex :
    (processFile emptyAssembleState bigTextAttachment).promptText
      = emptyAssembleState.promptText ++ "\n\n--- Content of " ++ "notes.txt" ++
        " ---\n" ++ bigText ++ "\n--- End of " ++ "notes.txt" ++ " ---" ∧
    8000 < bigText.length ∧
    (processFile emptyAssembleState bigTextAttachment).contents = [] := by
  refine ⟨?_, ?_, ?_⟩
  · simp [processFile, bigTextAttachment, emptyAssembleState, SUPPORTED_MIME_TYPES]
  · show 8000 < (List.replicate 8001 'a').length
    rw [List.length_replicate]
    omega
  · simp [processFile, bigTextAttachment, emptyAssembleState, SUPPORTED_MIME_TYPES]

/-- C6 (amended): a plain-text attachment's decoded text is appended into the
instruction text in full, wrapped in content header/footer lines naming the
file — with no truncation to a fixed maximum length and no truncation marker
— and no separate content part is produced for it. -/
theorem c6_text_appended_in_full (st : AssembleState) (f : Attachment) (raw : Bytes)
    (hm : f.mimeType = some "text/plain")
    (hb : f.base64.getD "" ≠ "")
    (hd : f.b64Result = Except.ok raw) :
    processFile st f = { st with promptText := st.promptText ++
      "\n\n--- Content of " ++ f.name.getD "file" ++ " ---\n" ++ f.utf8Text ++
      "\n--- End of " ++ f.name.getD "file" ++ " ---" } := by
  simp [processFile, hm, hb, hd, SUPPORTED_MIME_TYPES]

/-- A small concrete plain-text attachment. -/
def smallTextAttachment : Attachment :=
  { name := some "note.txt", mimeType := some "text/plain", base64 := some "aGk=",
    b64Result := Except.ok [104, 105], utf8Text := "hi",
    upload := UploadResult.raises "unused", inlineRaise := none }

/-- C6 witness: the amended theorem applied to a concrete text attachment. -/
theorem c6_text_appended_in_full_witness :
    processFile emptyAssembleState smallTextAttachment
      = { emptyAssembleState with promptText := emptyAssembleState.promptText ++
          "\n\n--- Content of " ++ smallTextAttachment.name.getD "file" ++ " ---\n" ++
          smallTextAttachment.utf8Text ++ "\n--- End of " ++
          smallTextAttachment.name.getD "file" ++ " ---" } :=
  c6_text_appended_in_full emptyAssembleState smallTextAttachment [104, 105] rfl
    (by decide) rfl

/-- A provider-side uploaded file whose processing state is immediately
ACTIVE. -/
def pdfActiveFile : UploadedFile :=
  { name := "files/abc123", uri := "files/abc123-uri", states := fun _ => "ACTIVE" }

/-- A concrete well-formed PDF attachment whose upload succeeds at once. -/
def pdfAttachment : Attachment :=
  { name := some "doc.pdf", mimeType := some "application/pdf", base64 := some "JVBERi0=",
    b64Result := Except.ok [37, 80, 68, 70], utf8Text := "",
    upload := UploadResult.ok pdfActiveFile, inlineRaise := none }

/-- A template instance for concrete runs: the instruction text is just the
question (the claims exercised on concrete inputs never depend on the
template's wording). -/
def questionTemplate : NormRequest → String := fun r => r.question

/-- A concrete payload whose single attachment is the PDF above. -/
def pdfPayload : Payload :=
  { board := none, class_level := none, subject := none, chapter := none,
    question := some "Summarise this document", model := none,
    files := some [pdfAttachment] }

/-- A default AskResult used to project concrete successful runs. -/
def emptyAskResult : AskResult :=
  { genArgs := { model := "", contents := [], config := none },
    uploadedFileUris := [], events := [], calls := [] }

/-- C1 counterexample: a concrete request that uploads a PDF and registers
its handle completes a normal, successful stream, yet its whole external-call
trace contains zero release (`files.delete`) calls — the release is not
invoked exactly once before the request finishes. -/
theorem c1_release_never_invoked_cex :
    (askRun questionTemplate pdfPayload (Except.ok ())
        [Pull.chunk (some "ans"), Pull.sentinel]).map
        (fun r => (r.uploadedFileUris, r.calls.countP isFilesDelete))
      = Except.ok (["files/abc123"], 0) := rfl

/-- C1 witness: the amended theorem applied to the concrete PDF request. -/
theorem c1_no_release_calls_witness :
    (((askRun questionTemplate pdfPayload (Except.ok ())
        [Pull.sentinel]).toOption.getD emptyAskResult).calls).countP isFilesDelete = 0 :=
  c1_no_release_calls questionTemplate pdfPayload (Except.ok ()) [Pull.sentinel] _ rfl

/-- A concrete casual-greeting payload (the spec's end-to-end scenario 4). -/
def hiPayload : Payload :=
  { board := none, class_level := none, subject := none, chapter := none,
    question := some "hi", model := none, files := none }

/-- A concrete academic payload. -/
def academicPayload : Payload :=
  { board := none, class_level := none, subject := none, chapter := none,
    question := some "State and prove the Pythagoras theorem", model := none,
    files := none }

/-- C5 counterexample: the generation call for the casual question "hi"
carries no config at all — no output cap, no temperature — and the academic
request's call is identical in its (absent) parameters, so the parameters do
not depend on any casual/academic classification. -/
theorem c5_config_independent_cex :
    (askRun questionTemplate hiPayload (Except.ok ())
        [Pull.chunk (some "Hello!"), Pull.sentinel]).map (fun r => r.genArgs.config)
      = Except.ok none ∧
    (askRun questionTemplate academicPayload (Except.ok ())
        [Pull.chunk (some "Proof."), Pull.sentinel]).map (fun r => r.genArgs.config)
      = Except.ok none := ⟨rfl, rfl⟩

/-- C5 (amended): the generation call receives only the model name (chosen
by the model-tier field) and the contents; no generation parameters — no max
output length, no temperature — are ever passed, for casual and academic
questions alike (no classification exists in the handler). -/
theorem c5_no_generation_params (template : NormRequest → String) (p : Payload)
    (setup : Except String Unit) (pulls : List Pull) (r : AskResult)
    (h : askRun template p setup pulls = Except.ok r) :
    r.genArgs.config = none := by
  unfold askRun at h
  cases hv : askValidate p with
  | error e => rw [hv] at h; cases h
  | ok req => rw [hv] at h; cases h; rfl

/-- C5 witness: the amended theorem applied to the concrete "hi" request. -/
theorem c5_no_generation_params_witness :
    ((askRun questionTemplate hiPayload (Except.ok ())
        [Pull.sentinel]).toOption.getD emptyAskResult).genArgs.config = none :=
  c5_no_generation_params questionTemplate hiPayload (Except.ok ()) [Pull.sentinel] _ rfl

lemma pollWait_le (states : Nat → String) :
    ∀ remaining waited, pollWait states waited remaining ≤ waited + remaining := by
  intro remaining
  induction remaining with
  | zero =>
    intro w
    simp [pollWait]
  | succ n ih =>
    intro w
    unfold pollWait
    split
    · have := ih (w + 1)
      omega
    · omega

/-- C8: for every well-formed PDF attachment, the upload-status polling loop
is bounded: the poll counter never exceeds `max_wait = 20` (at most 20
one-second polls, so the wait always terminates). When the upload succeeds
and the file reaches ACTIVE, a RemoteReference part is produced and the
handle is registered in the tracking list; when the upload raises, the
assembler annotates the failure and falls back to inlining the raw bytes as
a Bytes part — in all cases `processFile` returns a state and the request
proceeds. -/
theorem c8_pdf_bounded_poll_and_fallback (st : AssembleState) (f : Attachment) (raw : Bytes)
    (hm : f.mimeType = some "application/pdf")
    (hb : f.base64.getD "" ≠ "")
    (hd : f.b64Result = Except.ok raw) :
    (∀ u, f.upload = UploadResult.ok u →
      pollWait u.states 0 20 ≤ 20 ∧
      (u.states (pollWait u.states 0 20) = "ACTIVE" →
        processFile st f = { st with
          contents := st.contents ++ [ContentPart.remoteRef u.uri "application/pdf"],
          uploadedFileUris := st.uploadedFileUris ++ [u.name],
          calls := st.calls ++ ExtCall.filesUpload ::
            List.replicate (pollWait u.states 0 20) ExtCall.filesGet })) ∧
    (∀ e, f.upload = UploadResult.raises e → f.inlineRaise = none →
      processFile st f = { st with
        promptText := st.promptText ++
          "\n\n[Note: PDF upload failed (" ++ e ++ "), trying inline.]",
        contents := st.contents ++ [ContentPart.bytes "application/pdf" raw],
        calls := st.calls ++ [ExtCall.filesUpload] }) := by
  constructor
  · intro u hu
    refine ⟨by simpa using pollWait_le u.states 20 0, ?_⟩
    intro hact
    simp [processFile, hm, hb, hd, hu, hact, SUPPORTED_MIME_TYPES]
  · intro e hu hir
    simp [processFile, hm, hb, hd, hu, hir, SUPPORTED_MIME_TYPES]

/-- C8 witness: the theorem applied to the concrete immediately-ACTIVE PDF
attachment and the empty loop state. -/
theorem c8_pdf_bounded_poll_and_fallback_witness :
    (∀ u, pdfAttachment.upload = UploadResult.ok u →
      pollWait u.states 0 20 ≤ 20 ∧
      (u.states (pollWait u.states 0 20) = "ACTIVE" →
        processFile emptyAssembleState pdfAttachment = { emptyAssembleState with
          contents := emptyAssembleState.contents ++
            [ContentPart.remoteRef u.uri "application/pdf"],
          uploadedFileUris := emptyAssembleState.uploadedFileUris ++ [u.name],
          calls := emptyAssembleState.calls ++ ExtCall.filesUpload ::
            List.replicate (pollWait u.states 0 20) ExtCall.filesGet })) ∧
    (∀ e, pdfAttachment.upload = UploadResult.raises e →
      pdfAttachment.inlineRaise = none →
      processFile emptyAssembleState pdfAttachment = { emptyAssembleState with
        promptText := emptyAssembleState.promptText ++
          "\n\n[Note: PDF upload failed (" ++ e ++ "), trying inline.]",
        contents := emptyAssembleState.contents ++
          [ContentPart.bytes "application/pdf" [37, 80, 68, 70]],
        calls := emptyAssembleState.calls ++ [ExtCall.filesUpload] }) :=
  c8_pdf_bounded_poll_and_fallback emptyAssembleState pdfAttachment [37, 80, 68, 70]
    rfl (by decide) rfl

end AiTutor
